import Mathlib

/-!
Verification of the platform abstraction layer of `include/sbi/sbi_platform.h`:
the `struct sbi_platform` capability descriptor and its null-safe dispatch
accessors, embedded shallowly.

Modelling conventions:
* C pointers are `Option`: a null pointer is `none`.  A function that in C
  would dereference a null pointer has no defined result there; such a
  dereference is modelled by propagating `none`.
* `u32`/`u64` fields are `Nat`; overflow only matters in the
  `disabled_hart_mask & (1 << hartid)` test, where the C `int` shift semantics
  are modelled explicitly (see `hartMaskBit`).
* Void backend entry points have no result visible at this layer; only the
  fact that the dispatch layer invoked them, and with which arguments, is
  observable.  Each void-operation accessor therefore returns the optional
  invocation record (`some args` iff the backend was called with `args`).
* The `pmp_region_info` backend receives three output pointers; it is
  modelled in state-passing style: it receives the values currently stored
  at the three locations and returns the result code together with the
  values stored there after the call.
-/

/-- Feature flag `SBI_PLATFORM_HAS_MMIO_TIMER_VALUE = (1 << 0)`. -/
def SBI_PLATFORM_HAS_MMIO_TIMER_VALUE : Nat := 1 <<< 0

/-- Feature flag `SBI_PLATFORM_HAS_HART_HOTPLUG = (1 << 1)`. -/
def SBI_PLATFORM_HAS_HART_HOTPLUG : Nat := 1 <<< 1

/-- Feature flag `SBI_PLATFORM_HAS_PMP = (1 << 2)`. -/
def SBI_PLATFORM_HAS_PMP : Nat := 1 <<< 2

/-- Feature flag `SBI_PLATFORM_HAS_SCOUNTEREN = (1 << 3)`. -/
def SBI_PLATFORM_HAS_SCOUNTEREN : Nat := 1 <<< 3

/-- Feature flag `SBI_PLATFORM_HAS_MCOUNTEREN = (1 << 4)`. -/
def SBI_PLATFORM_HAS_MCOUNTEREN : Nat := 1 <<< 4

/-- Feature flag `SBI_PLATFORM_HAS_MFAULTS_DELEGATION = (1 << 5)`. -/
def SBI_PLATFORM_HAS_MFAULTS_DELEGATION : Nat := 1 <<< 5

/-- `SBI_PLATFORM_DEFAULT_FEATURES`: default feature set for a platform. -/
def SBI_PLATFORM_DEFAULT_FEATURES : Nat :=
  SBI_PLATFORM_HAS_MMIO_TIMER_VALUE |||
  SBI_PLATFORM_HAS_PMP |||
  SBI_PLATFORM_HAS_SCOUNTEREN |||
  SBI_PLATFORM_HAS_MCOUNTEREN |||
  SBI_PLATFORM_HAS_MFAULTS_DELEGATION

/-- `struct sbi_platform`: the per-board capability descriptor.  Scalar
fields come first (`char name[64]`, `u64 features`, `u32 hart_count`,
`u32 hart_stack_size`, `u64 disabled_hart_mask`), followed by the table of
nullable operation entry points, one per subsystem operation.  Function
pointer fields are `Option`s of pure functions; the void entry points carry
no information visible at this layer beyond their presence, so they are
`Option Unit`. -/
structure sbi_platform where
  /-- `char name[64]` -/
  name : String
  /-- `u64 features` -/
  features : Nat
  /-- `u32 hart_count` -/
  hart_count : Nat
  /-- `u32 hart_stack_size` -/
  hart_stack_size : Nat
  /-- `u64 disabled_hart_mask` -/
  disabled_hart_mask : Nat
  /-- `int (*early_init)(u32 hartid, bool cold_boot)` -/
  early_init : Option (Nat → Bool → Int)
  /-- `int (*final_init)(u32 hartid, bool cold_boot)` -/
  final_init : Option (Nat → Bool → Int)
  /-- `u32 (*pmp_region_count)(u32 hartid)` -/
  pmp_region_count : Option (Nat → Nat)
  /-- `int (*pmp_region_info)(u32 hartid, u32 index, ulong *prot, ulong *addr,
  ulong *log2size)`: state-passing, from the stored `(prot, addr, log2size)`
  values to the result code and the stored values after the call. -/
  pmp_region_info : Option (Nat → Nat → Nat → Nat → Nat → Int × Nat × Nat × Nat)
  /-- `void (*console_putc)(char ch)` -/
  console_putc : Option Unit
  /-- `char (*console_getc)(void)` -/
  console_getc : Option (Unit → Nat)
  /-- `int (*console_init)(void)` -/
  console_init : Option (Unit → Int)
  /-- `int (*irqchip_init)(u32 hartid, bool cold_boot)` -/
  irqchip_init : Option (Nat → Bool → Int)
  /-- `void (*ipi_inject)(u32 target_hart, u32 source_hart)` -/
  ipi_inject : Option Unit
  /-- `void (*ipi_sync)(u32 target_hart, u32 source_hart)` -/
  ipi_sync : Option Unit
  /-- `void (*ipi_clear)(u32 target_hart)` -/
  ipi_clear : Option Unit
  /-- `int (*ipi_init)(u32 hartid, bool cold_boot)` -/
  ipi_init : Option (Nat → Bool → Int)
  /-- `u64 (*timer_value)(void)` -/
  timer_value : Option (Unit → Nat)
  /-- `void (*timer_event_start)(u32 target_hart, u64 next_event)` -/
  timer_event_start : Option Unit
  /-- `void (*timer_event_stop)(u32 target_hart)` -/
  timer_event_stop : Option Unit
  /-- `int (*timer_init)(u32 hartid, bool cold_boot)` -/
  timer_init : Option (Nat → Bool → Int)
  /-- `int (*system_reboot)(u32 type)` -/
  system_reboot : Option (Nat → Int)
  /-- `int (*system_shutdown)(u32 type)` -/
  system_shutdown : Option (Nat → Int)

/-- The value of the C expression `(u64)(1 << hartid)` appearing in
`sbi_platform_hart_disabled`, where `1` has type `int` (32-bit, two's
complement) and `hartid` has type `u32`.  The compiled code for the 32-bit
shift uses only the low five bits of the shift count (RV64 `sllw`, x86 `shl`
on a 32-bit operand both reduce the count mod 32), so the effective shift is
`hartid % 32`.  For effective shifts up to 30 the result is the positive
`int` `2^(hartid % 32)`; for an effective shift of 31 the result is `INT_MIN`,
which sign-extends to `2^64 - 2^31` (bits 31..63 set) when widened to the
`u64` operand of `&`. -/
def hartMaskBit (hartid : Nat) : Nat :=
  if hartid % 32 = 31 then 2 ^ 64 - 2 ^ 31 else 2 ^ (hartid % 32)

/-- `sbi_platform_has_mmio_timer_value(__p)`, the macro
`((__p)->features & SBI_PLATFORM_HAS_MMIO_TIMER_VALUE)`.  The macro
dereferences `__p` unconditionally; on a null pointer its value is
undefined, modelled by `none`. -/
def sbi_platform_has_mmio_timer_value (plat : Option sbi_platform) : Option Nat :=
  plat.map (fun p => p.features &&& SBI_PLATFORM_HAS_MMIO_TIMER_VALUE)

/-- `sbi_platform_has_hart_hotplug(__p)`, the macro
`((__p)->features & SBI_PLATFORM_HAS_HART_HOTPLUG)`; unconditional
dereference, as above. -/
def sbi_platform_has_hart_hotplug (plat : Option sbi_platform) : Option Nat :=
  plat.map (fun p => p.features &&& SBI_PLATFORM_HAS_HART_HOTPLUG)

/-- `sbi_platform_has_pmp(__p)`, the macro
`((__p)->features & SBI_PLATFORM_HAS_PMP)`; unconditional dereference. -/
def sbi_platform_has_pmp (plat : Option sbi_platform) : Option Nat :=
  plat.map (fun p => p.features &&& SBI_PLATFORM_HAS_PMP)

/-- `sbi_platform_has_scounteren(__p)`, the macro
`((__p)->features & SBI_PLATFORM_HAS_SCOUNTEREN)`; unconditional
dereference. -/
def sbi_platform_has_scounteren (plat : Option sbi_platform) : Option Nat :=
  plat.map (fun p => p.features &&& SBI_PLATFORM_HAS_SCOUNTEREN)

/-- `sbi_platform_has_mcounteren(__p)`, the macro
`((__p)->features & SBI_PLATFORM_HAS_MCOUNTEREN)`; unconditional
dereference. -/
def sbi_platform_has_mcounteren (plat : Option sbi_platform) : Option Nat :=
  plat.map (fun p => p.features &&& SBI_PLATFORM_HAS_MCOUNTEREN)

/-- `sbi_platform_has_mfaults_delegation(__p)`, the macro
`((__p)->features & SBI_PLATFORM_HAS_MFAULTS_DELEGATION)`; unconditional
dereference. -/
def sbi_platform_has_mfaults_delegation (plat : Option sbi_platform) : Option Nat :=
  plat.map (fun p => p.features &&& SBI_PLATFORM_HAS_MFAULTS_DELEGATION)

/-- `sbi_platform_name`: `if (plat) return plat->name; return NULL;`. -/
def sbi_platform_name (plat : Option sbi_platform) : Option String :=
  match plat with
  | some p => some p.name
  | none => none

/-- `sbi_platform_hart_disabled`:
`if (plat && (plat->disabled_hart_mask & (1 << hartid))) return 1; else return 0;`
with `(u64)(1 << hartid)` as given by `hartMaskBit`. -/
def sbi_platform_hart_disabled (plat : Option sbi_platform) (hartid : Nat) : Bool :=
  match plat with
  | some p => p.disabled_hart_mask &&& hartMaskBit hartid != 0
  | none => false

/-- `sbi_platform_hart_count`: `if (plat) return plat->hart_count; return 0;`. -/
def sbi_platform_hart_count (plat : Option sbi_platform) : Nat :=
  match plat with
  | some p => p.hart_count
  | none => 0

/-- `sbi_platform_hart_stack_size`:
`if (plat) return plat->hart_stack_size; return 0;`. -/
def sbi_platform_hart_stack_size (plat : Option sbi_platform) : Nat :=
  match plat with
  | some p => p.hart_stack_size
  | none => 0

/-- `sbi_platform_early_init`:
`if (plat && plat->early_init) return plat->early_init(hartid, cold_boot); return 0;`. -/
def sbi_platform_early_init (plat : Option sbi_platform)
    (hartid : Nat) (cold_boot : Bool) : Int :=
  match plat with
  | some p =>
    match p.early_init with
    | some f => f hartid cold_boot
    | none => 0
  | none => 0

/-- `sbi_platform_final_init`:
`if (plat && plat->final_init) return plat->final_init(hartid, cold_boot); return 0;`. -/
def sbi_platform_final_init (plat : Option sbi_platform)
    (hartid : Nat) (cold_boot : Bool) : Int :=
  match plat with
  | some p =>
    match p.final_init with
    | some f => f hartid cold_boot
    | none => 0
  | none => 0

/-- `sbi_platform_pmp_region_count`:
`if (plat && plat->pmp_region_count) return plat->pmp_region_count(hartid); return 0;`. -/
def sbi_platform_pmp_region_count (plat : Option sbi_platform) (hartid : Nat) : Nat :=
  match plat with
  | some p =>
    match p.pmp_region_count with
    | some f => f hartid
    | none => 0
  | none => 0

/-- `sbi_platform_pmp_region_info`: takes the values stored at the three
output locations before the call and returns the result code together with
the values stored there after the call.  When the backend entry point is
invoked it decides both; otherwise the function returns 0 and the three
locations are not written:
`if (plat && plat->pmp_region_info) return plat->pmp_region_info(hartid, index, prot, addr, log2size); return 0;`. -/
def sbi_platform_pmp_region_info (plat : Option sbi_platform)
    (hartid index prot addr log2size : Nat) : Int × Nat × Nat × Nat :=
  match plat with
  | some p =>
    match p.pmp_region_info with
    | some f => f hartid index prot addr log2size
    | none => (0, prot, addr, log2size)
  | none => (0, prot, addr, log2size)

/-- `sbi_platform_console_putc`:
`if (plat && plat->console_putc) plat->console_putc(ch);`.
Returns the invocation record: `some ch` iff the backend was called. -/
def sbi_platform_console_putc (plat : Option sbi_platform) (ch : Nat) : Option Nat :=
  match plat with
  | some p =>
    match p.console_putc with
    | some _ => some ch
    | none => none
  | none => none

/-- `sbi_platform_console_getc`:
`if (plat && plat->console_getc) return plat->console_getc(); return 0;`. -/
def sbi_platform_console_getc (plat : Option sbi_platform) : Nat :=
  match plat with
  | some p =>
    match p.console_getc with
    | some f => f ()
    | none => 0
  | none => 0

/-- `sbi_platform_console_init`:
`if (plat && plat->console_init) return plat->console_init(); return 0;`. -/
def sbi_platform_console_init (plat : Option sbi_platform) : Int :=
  match plat with
  | some p =>
    match p.console_init with
    | some f => f ()
    | none => 0
  | none => 0

/-- `sbi_platform_irqchip_init`:
`if (plat && plat->irqchip_init) return plat->irqchip_init(hartid, cold_boot); return 0;`. -/
def sbi_platform_irqchip_init (plat : Option sbi_platform)
    (hartid : Nat) (cold_boot : Bool) : Int :=
  match plat with
  | some p =>
    match p.irqchip_init with
    | some f => f hartid cold_boot
    | none => 0
  | none => 0

/-- `sbi_platform_ipi_inject`:
`if (plat && plat->ipi_inject) plat->ipi_inject(target_hart, source_hart);`.
Returns the invocation record. -/
def sbi_platform_ipi_inject (plat : Option sbi_platform)
    (target_hart source_hart : Nat) : Option (Nat × Nat) :=
  match plat with
  | some p =>
    match p.ipi_inject with
    | some _ => some (target_hart, source_hart)
    | none => none
  | none => none

/-- `sbi_platform_ipi_sync`:
`if (plat && plat->ipi_sync) plat->ipi_sync(target_hart, source_hart);`.
Returns the invocation record. -/
def sbi_platform_ipi_sync (plat : Option sbi_platform)
    (target_hart source_hart : Nat) : Option (Nat × Nat) :=
  match plat with
  | some p =>
    match p.ipi_sync with
    | some _ => some (target_hart, source_hart)
    | none => none
  | none => none

/-- `sbi_platform_ipi_clear`:
`if (plat && plat->ipi_clear) plat->ipi_clear(target_hart);`.
Returns the invocation record. -/
def sbi_platform_ipi_clear (plat : Option sbi_platform)
    (target_hart : Nat) : Option Nat :=
  match plat with
  | some p =>
    match p.ipi_clear with
    | some _ => some target_hart
    | none => none
  | none => none

/-- `sbi_platform_ipi_init`:
`if (plat && plat->ipi_init) return plat->ipi_init(hartid, cold_boot); return 0;`. -/
def sbi_platform_ipi_init (plat : Option sbi_platform)
    (hartid : Nat) (cold_boot : Bool) : Int :=
  match plat with
  | some p =>
    match p.ipi_init with
    | some f => f hartid cold_boot
    | none => 0
  | none => 0

/-- `sbi_platform_timer_value`:
`if (plat && plat->timer_value) return plat->timer_value(); return 0;`. -/
def sbi_platform_timer_value (plat : Option sbi_platform) : Nat :=
  match plat with
  | some p =>
    match p.timer_value with
    | some f => f ()
    | none => 0
  | none => 0

/-- `sbi_platform_timer_event_start`:
`if (plat && plat->timer_event_start) plat->timer_event_start(target_hart, next_event);`.
Returns the invocation record. -/
def sbi_platform_timer_event_start (plat : Option sbi_platform)
    (target_hart next_event : Nat) : Option (Nat × Nat) :=
  match plat with
  | some p =>
    match p.timer_event_start with
    | some _ => some (target_hart, next_event)
    | none => none
  | none => none

/-- `sbi_platform_timer_event_stop`:
`if (plat && plat->timer_event_stop) plat->timer_event_stop(target_hart);`.
Returns the invocation record. -/
def sbi_platform_timer_event_stop (plat : Option sbi_platform)
    (target_hart : Nat) : Option Nat :=
  match plat with
  | some p =>
    match p.timer_event_stop with
    | some _ => some target_hart
    | none => none
  | none => none

/-- `sbi_platform_timer_init`:
`if (plat && plat->timer_init) return plat->timer_init(hartid, cold_boot); return 0;`. -/
def sbi_platform_timer_init (plat : Option sbi_platform)
    (hartid : Nat) (cold_boot : Bool) : Int :=
  match plat with
  | some p =>
    match p.timer_init with
    | some f => f hartid cold_boot
    | none => 0
  | none => 0

/-- `sbi_platform_system_reboot`:
`if (plat && plat->system_reboot) return plat->system_reboot(type); return 0;`. -/
def sbi_platform_system_reboot (plat : Option sbi_platform) (type : Nat) : Int :=
  match plat with
  | some p =>
    match p.system_reboot with
    | some f => f type
    | none => 0
  | none => 0

/-- `sbi_platform_system_shutdown`:
`if (plat && plat->system_shutdown) return plat->system_shutdown(type); return 0;`. -/
def sbi_platform_system_shutdown (plat : Option sbi_platform) (type : Nat) : Int :=
  match plat with
  | some p =>
    match p.system_shutdown with
    | some f => f type
    | none => 0
  | none => 0

/-- `SBI_PLATFORM_NAME_OFFSET`: documented offset of `name` in
`struct sbi_platform`. -/
def SBI_PLATFORM_NAME_OFFSET : Nat := 0x0

/-- `SBI_PLATFORM_FEATURES_OFFSET`: documented offset of `features` in
`struct sbi_platform`. -/
def SBI_PLATFORM_FEATURES_OFFSET : Nat := 0x40

/-- `SBI_PLATFORM_HART_COUNT_OFFSET`: documented offset of `hart_count` in
`struct sbi_platform`. -/
def SBI_PLATFORM_HART_COUNT_OFFSET : Nat := 0x48

/-- `SBI_PLATFORM_HART_STACK_SIZE_OFFSET`: documented offset of
`hart_stack_size` in `struct sbi_platform`. -/
def SBI_PLATFORM_HART_STACK_SIZE_OFFSET : Nat := 0x4c

/-- Sizes in bytes of the leading scalar fields of `struct sbi_platform`,
in declaration order: `char name[64]` (64 bytes), `u64 features` (8),
`u32 hart_count` (4), `u32 hart_stack_size` (4), `u64 disabled_hart_mask`
(8).  The operation table (function pointers) follows.  The struct is
declared `__packed`, so no padding is inserted between fields. -/
def sbi_platform_scalar_fields : List (String × Nat) :=
  [("name", 64), ("features", 8), ("hart_count", 4),
   ("hart_stack_size", 4), ("disabled_hart_mask", 8)]

/-- Byte offset of a field in a packed field list: the sum of the sizes of
the fields declared before it. -/
def packedOffset : List (String × Nat) → String → Nat
  | [], _ => 0
  | (f, sz) :: rest, target =>
    if f = target then 0 else sz + packedOffset rest target

/-- A descriptor with every operation entry point null and zeroed scalar
fields; concrete base value for tests. -/
def platBare : sbi_platform where
  name := ""
  features := 0
  hart_count := 0
  hart_stack_size := 0
  disabled_hart_mask := 0
  early_init := none
  final_init := none
  pmp_region_count := none
  pmp_region_info := none
  console_putc := none
  console_getc := none
  console_init := none
  irqchip_init := none
  ipi_inject := none
  ipi_sync := none
  ipi_clear := none
  ipi_init := none
  timer_value := none
  timer_event_start := none
  timer_event_stop := none
  timer_init := none
  system_reboot := none
  system_shutdown := none

/-- A `u64` mask value and a power of two meet in a nonzero value exactly
when the mask has the corresponding bit set. -/
theorem land_two_pow_ne_zero_iff (m i : Nat) : m &&& 2 ^ i ≠ 0 ↔ m.testBit i := by
  rw [Nat.and_two_pow]
  cases h : m.testBit i <;> simp [h, Nat.pos_iff_ne_zero, Nat.two_pow_pos]

/-- A natural number is nonzero exactly when some bit of it is set. -/
theorem ne_zero_iff_exists_testBit (m : Nat) : m ≠ 0 ↔ ∃ i, m.testBit i := by
  constructor
  · exact Nat.ne_zero_implies_bit_true
  · rintro ⟨i, hi⟩ hm
    rw [hm] at hi
    simp at hi

/-- The features bitmask as reconstructed by reading every defined feature
bit back through its query accessor: a defined bit contributes its flag
value exactly when the corresponding query reports a nonzero (truthy)
value. -/
def featuresReadback (p : sbi_platform) : Nat :=
  (if (sbi_platform_has_mmio_timer_value (some p)).getD 0 ≠ 0
    then SBI_PLATFORM_HAS_MMIO_TIMER_VALUE else 0) |||
  (if (sbi_platform_has_hart_hotplug (some p)).getD 0 ≠ 0
    then SBI_PLATFORM_HAS_HART_HOTPLUG else 0) |||
  (if (sbi_platform_has_pmp (some p)).getD 0 ≠ 0
    then SBI_PLATFORM_HAS_PMP else 0) |||
  (if (sbi_platform_has_scounteren (some p)).getD 0 ≠ 0
    then SBI_PLATFORM_HAS_SCOUNTEREN else 0) |||
  (if (sbi_platform_has_mcounteren (some p)).getD 0 ≠ 0
    then SBI_PLATFORM_HAS_MCOUNTEREN else 0) |||
  (if (sbi_platform_has_mfaults_delegation (some p)).getD 0 ≠ 0
    then SBI_PLATFORM_HAS_MFAULTS_DELEGATION else 0)

/-- A descriptor exercising the C1 counterexample: 64 harts, and only hart
32 disabled (`disabled_hart_mask = 2^32`). -/
def plat64 : sbi_platform :=
  { platBare with hart_count := 64, disabled_hart_mask := 2 ^ 32 }

/-- Claim C4: every dispatch-layer accessor called with a null descriptor
pointer returns its documented default without dereferencing the
descriptor: an absent name for `sbi_platform_name`; 0 for `hart_count`,
`hart_stack_size`, `console_getc`, `timer_value` and `pmp_region_count`;
false for `hart_disabled`; 0 (success) for every result-returning
operation (with the `pmp_region_info` output locations untouched); and no
backend invocation for every void operation. -/
theorem null_descriptor_defaults
    (hartid index target_hart source_hart type ch prot addr log2size next_event : Nat)
    (cold_boot : Bool) :
    sbi_platform_name none = none ∧
    sbi_platform_hart_count none = 0 ∧
    sbi_platform_hart_stack_size none = 0 ∧
    sbi_platform_hart_disabled none hartid = false ∧
    sbi_platform_early_init none hartid cold_boot = 0 ∧
    sbi_platform_final_init none hartid cold_boot = 0 ∧
    sbi_platform_pmp_region_count none hartid = 0 ∧
    sbi_platform_pmp_region_info none hartid index prot addr log2size
      = (0, prot, addr, log2size) ∧
    sbi_platform_console_putc none ch = none ∧
    sbi_platform_console_getc none = 0 ∧
    sbi_platform_console_init none = 0 ∧
    sbi_platform_irqchip_init none hartid cold_boot = 0 ∧
    sbi_platform_ipi_inject none target_hart source_hart = none ∧
    sbi_platform_ipi_sync none target_hart source_hart = none ∧
    sbi_platform_ipi_clear none target_hart = none ∧
    sbi_platform_ipi_init none hartid cold_boot = 0 ∧
    sbi_platform_timer_value none = 0 ∧
    sbi_platform_timer_event_start none target_hart next_event = none ∧
    sbi_platform_timer_event_stop none target_hart = none ∧
    sbi_platform_timer_init none hartid cold_boot = 0 ∧
    sbi_platform_system_reboot none type = 0 ∧
    sbi_platform_system_shutdown none type = 0 :=
  ⟨rfl, rfl, rfl, rfl, rfl, rfl, rfl, rfl, rfl, rfl, rfl,
   rfl, rfl, rfl, rfl, rfl, rfl, rfl, rfl, rfl, rfl, rfl⟩

/-- Claim C5: for every non-null descriptor, each subsystem operation whose
entry point is null yields the documented neutral default — 0/success for
result-returning operations (with `pmp_region_info` leaving its output
locations untouched), the zero character for `console_getc`, 0 for
`timer_value` and `pmp_region_count` — and no backend entry point is
invoked (every void operation returns with no invocation record). -/
theorem absent_entry_point_defaults (p : sbi_platform)
    (hartid index target_hart source_hart type ch prot addr log2size next_event : Nat)
    (cold_boot : Bool) :
    sbi_platform_early_init (some { p with early_init := none }) hartid cold_boot = 0 ∧
    sbi_platform_final_init (some { p with final_init := none }) hartid cold_boot = 0 ∧
    sbi_platform_pmp_region_count (some { p with pmp_region_count := none }) hartid = 0 ∧
    sbi_platform_pmp_region_info (some { p with pmp_region_info := none })
      hartid index prot addr log2size = (0, prot, addr, log2size) ∧
    sbi_platform_console_putc (some { p with console_putc := none }) ch = none ∧
    sbi_platform_console_getc (some { p with console_getc := none }) = 0 ∧
    sbi_platform_console_init (some { p with console_init := none }) = 0 ∧
    sbi_platform_irqchip_init (some { p with irqchip_init := none }) hartid cold_boot = 0 ∧
    sbi_platform_ipi_inject (some { p with ipi_inject := none }) target_hart source_hart = none ∧
    sbi_platform_ipi_sync (some { p with ipi_sync := none }) target_hart source_hart = none ∧
    sbi_platform_ipi_clear (some { p with ipi_clear := none }) target_hart = none ∧
    sbi_platform_ipi_init (some { p with ipi_init := none }) hartid cold_boot = 0 ∧
    sbi_platform_timer_value (some { p with timer_value := none }) = 0 ∧
    sbi_platform_timer_event_start (some { p with timer_event_start := none })
      target_hart next_event = none ∧
    sbi_platform_timer_event_stop (some { p with timer_event_stop := none }) target_hart = none ∧
    sbi_platform_timer_init (some { p with timer_init := none }) hartid cold_boot = 0 ∧
    sbi_platform_system_reboot (some { p with system_reboot := none }) type = 0 ∧
    sbi_platform_system_shutdown (some { p with system_shutdown := none }) type = 0 :=
  ⟨rfl, rfl, rfl, rfl, rfl, rfl, rfl, rfl, rfl,
   rfl, rfl, rfl, rfl, rfl, rfl, rfl, rfl, rfl⟩

/-- Claim C7: for every non-null descriptor whose entry point for a
result-returning operation is populated, the accessor returns exactly the
value produced by that entry point, unmodified, for every argument
combination. -/
theorem populated_entry_point_passthrough (p : sbi_platform)
    (fe ff fq fi ft : Nat → Bool → Int) (fc : Unit → Int) (fr fs : Nat → Int)
    (fp : Nat → Nat → Nat → Nat → Nat → Int × Nat × Nat × Nat)
    (hartid index type prot addr log2size : Nat) (cold_boot : Bool) :
    sbi_platform_early_init (some { p with early_init := some fe }) hartid cold_boot
      = fe hartid cold_boot ∧
    sbi_platform_final_init (some { p with final_init := some ff }) hartid cold_boot
      = ff hartid cold_boot ∧
    sbi_platform_console_init (some { p with console_init := some fc }) = fc () ∧
    sbi_platform_irqchip_init (some { p with irqchip_init := some fq }) hartid cold_boot
      = fq hartid cold_boot ∧
    sbi_platform_ipi_init (some { p with ipi_init := some fi }) hartid cold_boot
      = fi hartid cold_boot ∧
    sbi_platform_timer_init (some { p with timer_init := some ft }) hartid cold_boot
      = ft hartid cold_boot ∧
    sbi_platform_pmp_region_info (some { p with pmp_region_info := some fp })
      hartid index prot addr log2size = fp hartid index prot addr log2size ∧
    sbi_platform_system_reboot (some { p with system_reboot := some fr }) type = fr type ∧
    sbi_platform_system_shutdown (some { p with system_shutdown := some fs }) type = fs type :=
  ⟨rfl, rfl, rfl, rfl, rfl, rfl, rfl, rfl, rfl⟩

/-- Claim C9: when the `pmp_region_info` entry point is absent or the
descriptor is null, `sbi_platform_pmp_region_info` returns 0 and writes
through none of the three output pointers: the values stored at those
locations before the call are the values stored after it. -/
theorem pmp_region_info_frame (p : sbi_platform)
    (hartid index prot addr log2size : Nat) :
    sbi_platform_pmp_region_info none hartid index prot addr log2size
      = (0, prot, addr, log2size) ∧
    sbi_platform_pmp_region_info (some { p with pmp_region_info := none })
      hartid index prot addr log2size = (0, prot, addr, log2size) :=
  ⟨rfl, rfl⟩

/-- Claim C2 (counterexample): with no `pmp_region_info` entry point and the
three output locations holding 1, 2, 3 before the call, the call at
`hartid=0, index=0` returns 0 but leaves the outputs at 1, 2, 3 — they are
not all zero after the call. -/
theorem pmp_region_info_counterexample :
    sbi_platform_pmp_region_info (some platBare) 0 0 1 2 3 = (0, 1, 2, 3) ∧
    sbi_platform_pmp_region_info (some platBare) 0 0 1 2 3 ≠ (0, 0, 0, 0) := by
  refine ⟨rfl, ?_⟩
  intro h
  have h2 : (1 : Nat) = 0 := congrArg (fun t => t.2.1) h
  exact absurd h2 one_ne_zero

/-- Claim C2 (amended): with the `pmp_region_info` entry point absent, the
accessor returns 0 (success) without writing the output locations, so the
three outputs equal zero after the call exactly when they were zero before
it. -/
theorem pmp_region_info_absent_success (p : sbi_platform)
    (hartid index prot addr log2size : Nat) :
    (sbi_platform_pmp_region_info (some { p with pmp_region_info := none })
      hartid index prot addr log2size).1 = 0 ∧
    (sbi_platform_pmp_region_info (some { p with pmp_region_info := none })
        hartid index prot addr log2size = (0, 0, 0, 0) ↔
      prot = 0 ∧ addr = 0 ∧ log2size = 0) := by
  refine ⟨rfl, ?_⟩
  show ((0 : Int), prot, addr, log2size) = (0, 0, 0, 0) ↔ _
  simp [Prod.ext_iff]

/-- Claim C10: with the `__packed` layout (offsets are running sums of the
declared field sizes), the four leading fields of `struct sbi_platform`
sit at the documented fixed byte offsets: `name` at 0x0, `features` at
0x40, `hart_count` at 0x48 and `hart_stack_size` at 0x4c. -/
theorem descriptor_field_offsets :
    packedOffset sbi_platform_scalar_fields "name" = SBI_PLATFORM_NAME_OFFSET ∧
    packedOffset sbi_platform_scalar_fields "features" = SBI_PLATFORM_FEATURES_OFFSET ∧
    packedOffset sbi_platform_scalar_fields "hart_count" = SBI_PLATFORM_HART_COUNT_OFFSET ∧
    packedOffset sbi_platform_scalar_fields "hart_stack_size"
      = SBI_PLATFORM_HART_STACK_SIZE_OFFSET := by
  decide

/-- Claim C3 (counterexample): the feature-query macros dereference the
descriptor pointer unconditionally, so with a null descriptor the query
has no defined value (modelled `none`) — it does not report "not
supported" (which would be the defined value `some 0`). -/
theorem feature_query_null_counterexample :
    sbi_platform_has_mmio_timer_value none = none ∧
    sbi_platform_has_mmio_timer_value none ≠ some 0 := by
  refine ⟨rfl, ?_⟩
  intro h
  simp [sbi_platform_has_mmio_timer_value] at h

/-- Claim C3 (amended): each feature-query macro reads `features` from the
descriptor unconditionally: for a present descriptor it evaluates to the
features value masked with the feature bit (nonzero exactly when the bit
is set), and for a null descriptor the dereference has no defined result
(`none`) instead of reporting "not supported". -/
theorem feature_query_deref (p : sbi_platform) :
    sbi_platform_has_mmio_timer_value (some p)
      = some (p.features &&& SBI_PLATFORM_HAS_MMIO_TIMER_VALUE) ∧
    sbi_platform_has_hart_hotplug (some p)
      = some (p.features &&& SBI_PLATFORM_HAS_HART_HOTPLUG) ∧
    sbi_platform_has_pmp (some p) = some (p.features &&& SBI_PLATFORM_HAS_PMP) ∧
    sbi_platform_has_scounteren (some p)
      = some (p.features &&& SBI_PLATFORM_HAS_SCOUNTEREN) ∧
    sbi_platform_has_mcounteren (some p)
      = some (p.features &&& SBI_PLATFORM_HAS_MCOUNTEREN) ∧
    sbi_platform_has_mfaults_delegation (some p)
      = some (p.features &&& SBI_PLATFORM_HAS_MFAULTS_DELEGATION) ∧
    sbi_platform_has_mmio_timer_value none = none ∧
    sbi_platform_has_hart_hotplug none = none ∧
    sbi_platform_has_pmp none = none ∧
    sbi_platform_has_scounteren none = none ∧
    sbi_platform_has_mcounteren none = none ∧
    sbi_platform_has_mfaults_delegation none = none :=
  ⟨rfl, rfl, rfl, rfl, rfl, rfl, rfl, rfl, rfl, rfl, rfl, rfl⟩

/-- Bit `i` of the sign-extended `(u64)INT_MIN` value `2^64 - 2^31` is set
exactly for `31 ≤ i < 64`. -/
theorem testBit_high_mask (i : Nat) :
    (2 ^ 64 - 2 ^ 31 : Nat).testBit i = (decide (31 ≤ i) && decide (i < 64)) := by
  have h : (2 ^ 64 - 2 ^ 31 : Nat) = (2 ^ 33 - 1) <<< 31 := by
    rw [Nat.shiftLeft_eq]
    norm_num
  rw [h, Nat.testBit_shiftLeft, Nat.testBit_two_pow_sub_one]
  by_cases h1 : 31 ≤ i
  · have h2 : (i - 31 < 33) = (i < 64) := by
      apply propext
      omega
    simp [h1, h2, ge_iff_le]
  · simp [h1, ge_iff_le]

/-- A `u64` mask meets the sign-extended bit-31 test value in a nonzero
value exactly when one of its bits 31 through 63 is set. -/
theorem land_high_mask_ne_zero_iff (m : Nat) :
    m &&& (2 ^ 64 - 2 ^ 31) ≠ 0 ↔ ∃ i ∈ Finset.Ico 31 64, m.testBit i := by
  rw [ne_zero_iff_exists_testBit]
  constructor
  · rintro ⟨i, hi⟩
    rw [Nat.testBit_land, testBit_high_mask] at hi
    simp only [Bool.and_eq_true, decide_eq_true_eq] at hi
    exact ⟨i, Finset.mem_Ico.mpr ⟨hi.2.1, hi.2.2⟩, hi.1⟩
  · rintro ⟨i, hmem, hbit⟩
    rcases Finset.mem_Ico.mp hmem with ⟨h1, h2⟩
    refine ⟨i, ?_⟩
    rw [Nat.testBit_land, testBit_high_mask]
    simp [hbit, h1, h2]

/-- Claim C1 (counterexample): for the descriptor with `hart_count = 64`
(within the claimed bound of 64) and `disabled_hart_mask = 2^32`,
`hart_id = 31` lies in `[0, hart_count)` and bit 31 of the mask is clear,
yet `sbi_platform_hart_disabled` reports hart 31 as disabled: the 32-bit
`1 << 31` sign-extends to cover bits 31..63 of the mask. -/
theorem hart_disabled_bit31_counterexample :
    plat64.hart_count ≤ 64 ∧
    31 < plat64.hart_count ∧
    plat64.disabled_hart_mask.testBit 31 = false ∧
    sbi_platform_hart_disabled (some plat64) 31 = true := by
  refine ⟨by decide, by decide, by decide, ?_⟩
  decide

/-- Claim C1 (amended): for every descriptor and every `hart_id < 31` (in
particular all of `[0, hart_count)` whenever `hart_count ≤ 31`),
`sbi_platform_hart_disabled` returns true exactly when bit `hart_id` of
`disabled_hart_mask` is set; the `hart_count = 4`,
`disabled_hart_mask = 0b0100` scenario behaves as stated.  (At
`hart_id = 31` and above the 32-bit shift semantics take over; see the
bit-31 counterexample and claim C8.) -/
theorem hart_disabled_iff_testBit (p : sbi_platform) (hartid : Nat)
    (h : hartid < 31) :
    sbi_platform_hart_disabled (some p) hartid
      = p.disabled_hart_mask.testBit hartid := by
  have h32 : hartid % 32 = hartid := Nat.mod_eq_of_lt (by omega)
  have hkey := land_two_pow_ne_zero_iff p.disabled_hart_mask hartid
  unfold sbi_platform_hart_disabled hartMaskBit
  rw [h32, if_neg (by omega : ¬ hartid = 31)]
  cases hb : p.disabled_hart_mask.testBit hartid
  · have hz : p.disabled_hart_mask &&& 2 ^ hartid = 0 := by
      by_contra hc
      have hbit := hkey.mp hc
      rw [hb] at hbit
      exact Bool.false_ne_true hbit
    simp [hz]
  · simp only [hb, iff_true, ne_eq] at hkey
    simpa [bne_iff_ne] using hkey

/-- Claim C1 (witness): the spec scenario, via the amended theorem — with
`hart_count = 4` and `disabled_hart_mask = 0b0100`, hart 2 is disabled and
harts 0, 1, 3 are not. -/
theorem hart_disabled_iff_testBit_witness :
    sbi_platform_hart_disabled
      (some { platBare with hart_count := 4, disabled_hart_mask := 4 }) 2 = true ∧
    sbi_platform_hart_disabled
      (some { platBare with hart_count := 4, disabled_hart_mask := 4 }) 0 = false ∧
    sbi_platform_hart_disabled
      (some { platBare with hart_count := 4, disabled_hart_mask := 4 }) 1 = false ∧
    sbi_platform_hart_disabled
      (some { platBare with hart_count := 4, disabled_hart_mask := 4 }) 3 = false := by
  refine ⟨?_, ?_, ?_, ?_⟩ <;>
    rw [hart_disabled_iff_testBit _ _ (by decide)] <;> decide

/-- Claim C8: in `sbi_platform_hart_disabled` the mask test
`disabled_hart_mask & (1 << hartid)` uses a 32-bit signed `1`: at
`hartid = 31` the shifted value sign-extends when widened to the 64-bit
mask, so the call returns true exactly when at least one of bits 31..63 of
`disabled_hart_mask` is set; and for `hartid` in `[32, 64)` the shift
count exceeds the 32-bit operand width, so the test reduces to the one for
`hartid % 32` — no bit of the mask above 31 is ever individually
consulted. -/
theorem hart_disabled_shift_semantics (p : sbi_platform) (hartid : Nat) :
    (hartid = 31 →
      (sbi_platform_hart_disabled (some p) hartid = true ↔
        ∃ i ∈ Finset.Ico 31 64, p.disabled_hart_mask.testBit i)) ∧
    (32 ≤ hartid → hartid < 64 →
      sbi_platform_hart_disabled (some p) hartid
        = sbi_platform_hart_disabled (some p) (hartid % 32)) := by
  constructor
  · rintro rfl
    have hkey := land_high_mask_ne_zero_iff p.disabled_hart_mask
    unfold sbi_platform_hart_disabled hartMaskBit
    rw [if_pos (by decide : (31 : Nat) % 32 = 31)]
    rw [← hkey]
    simp [bne_iff_ne]
  · intro _ _
    unfold sbi_platform_hart_disabled
    have hmb : hartMaskBit (hartid % 32) = hartMaskBit hartid := by
      unfold hartMaskBit
      rw [Nat.mod_mod_of_dvd _ dvd_rfl]
    rw [hmb]

/-- Claim C8 (witness): the two parts of the shift-semantics theorem at the
descriptor with `disabled_hart_mask = 2^35`: hart 31 tests bits 31..63,
and hart 33 is tested exactly as hart `33 % 32 = 1`. -/
theorem hart_disabled_shift_semantics_witness :
    (sbi_platform_hart_disabled
        (some { platBare with disabled_hart_mask := 2 ^ 35 }) 31 = true ↔
      ∃ i ∈ Finset.Ico 31 64,
        ({ platBare with disabled_hart_mask := 2 ^ 35 } :
          sbi_platform).disabled_hart_mask.testBit i) ∧
    sbi_platform_hart_disabled
        (some { platBare with disabled_hart_mask := 2 ^ 35 }) 33
      = sbi_platform_hart_disabled
          (some { platBare with disabled_hart_mask := 2 ^ 35 }) (33 % 32) :=
  ⟨(hart_disabled_shift_semantics _ 31).1 rfl,
   (hart_disabled_shift_semantics _ 33).2 (by decide) (by decide)⟩

/-- Claim C6: each of the six feature queries reports exactly the
corresponding bit of `features` (nonzero masked value iff the bit is set);
the queries depend on nothing but `features` (in particular not on which
operation entry points are populated); and reading every defined bit back
(`featuresReadback`) reproduces the `features` bitmask exactly whenever it
is a combination of the six defined feature flags (i.e. below 2^6). -/
theorem features_query_roundtrip (p : sbi_platform) :
    ((sbi_platform_has_mmio_timer_value (some p)).getD 0 ≠ 0
      ↔ p.features.testBit 0) ∧
    ((sbi_platform_has_hart_hotplug (some p)).getD 0 ≠ 0
      ↔ p.features.testBit 1) ∧
    ((sbi_platform_has_pmp (some p)).getD 0 ≠ 0 ↔ p.features.testBit 2) ∧
    ((sbi_platform_has_scounteren (some p)).getD 0 ≠ 0
      ↔ p.features.testBit 3) ∧
    ((sbi_platform_has_mcounteren (some p)).getD 0 ≠ 0
      ↔ p.features.testBit 4) ∧
    ((sbi_platform_has_mfaults_delegation (some p)).getD 0 ≠ 0
      ↔ p.features.testBit 5) ∧
    sbi_platform_has_mmio_timer_value (some p)
      = sbi_platform_has_mmio_timer_value
          (some { platBare with features := p.features }) ∧
    sbi_platform_has_hart_hotplug (some p)
      = sbi_platform_has_hart_hotplug
          (some { platBare with features := p.features }) ∧
    sbi_platform_has_pmp (some p)
      = sbi_platform_has_pmp (some { platBare with features := p.features }) ∧
    sbi_platform_has_scounteren (some p)
      = sbi_platform_has_scounteren
          (some { platBare with features := p.features }) ∧
    sbi_platform_has_mcounteren (some p)
      = sbi_platform_has_mcounteren
          (some { platBare with features := p.features }) ∧
    sbi_platform_has_mfaults_delegation (some p)
      = sbi_platform_has_mfaults_delegation
          (some { platBare with features := p.features }) ∧
    (p.features < 64 → featuresReadback p = p.features) := by
  refine ⟨?_, ?_, ?_, ?_, ?_, ?_, rfl, rfl, rfl, rfl, rfl, rfl, ?_⟩
  · show p.features &&& SBI_PLATFORM_HAS_MMIO_TIMER_VALUE ≠ 0 ↔ _
    rw [(by decide : SBI_PLATFORM_HAS_MMIO_TIMER_VALUE = 2 ^ 0)]
    exact land_two_pow_ne_zero_iff _ 0
  · show p.features &&& SBI_PLATFORM_HAS_HART_HOTPLUG ≠ 0 ↔ _
    rw [(by decide : SBI_PLATFORM_HAS_HART_HOTPLUG = 2 ^ 1)]
    exact land_two_pow_ne_zero_iff _ 1
  · show p.features &&& SBI_PLATFORM_HAS_PMP ≠ 0 ↔ _
    rw [(by decide : SBI_PLATFORM_HAS_PMP = 2 ^ 2)]
    exact land_two_pow_ne_zero_iff _ 2
  · show p.features &&& SBI_PLATFORM_HAS_SCOUNTEREN ≠ 0 ↔ _
    rw [(by decide : SBI_PLATFORM_HAS_SCOUNTEREN = 2 ^ 3)]
    exact land_two_pow_ne_zero_iff _ 3
  · show p.features &&& SBI_PLATFORM_HAS_MCOUNTEREN ≠ 0 ↔ _
    rw [(by decide : SBI_PLATFORM_HAS_MCOUNTEREN = 2 ^ 4)]
    exact land_two_pow_ne_zero_iff _ 4
  · show p.features &&& SBI_PLATFORM_HAS_MFAULTS_DELEGATION ≠ 0 ↔ _
    rw [(by decide : SBI_PLATFORM_HAS_MFAULTS_DELEGATION = 2 ^ 5)]
    exact land_two_pow_ne_zero_iff _ 5
  · intro hf
    have hgen : ∀ f : Nat, f < 64 →
        featuresReadback { platBare with features := f } = f := by decide
    have heq : featuresReadback p
        = featuresReadback { platBare with features := p.features } := rfl
    rw [heq]
    exact hgen p.features hf

/-- Claim C6 (witness): the round-trip at the defined-bits combination
`features = 0b101011 = 43`, via the round-trip theorem. -/
theorem features_query_roundtrip_witness :
    featuresReadback { platBare with features := 43 } = 43 :=
  (features_query_roundtrip { platBare with features := 43
    }).2.2.2.2.2.2.2.2.2.2.2.2 (by decide)
